import Mathlib

/-!
Shallow embedding of the calendar-service HTTP handlers (Express + Supabase).

The JavaScript source keeps several versions of the same route files; the
embedding below names them explicitly:
* `registerSlot` / `unregisterSlot` embed the slot handlers of
  `src/routes/event/misc/misc.js` (the version wired up in `index.js`);
* `assignStudentsToEventV1`, `updateEventV1`, `deleteEvent` embed
  `src/routes/event/event.js`;
* `assignStudentsToEventV2`, `updateEventV2` embed the variant of the same
  file stored as `unnamed/part_000`;
* `updateEventStudent` embeds the PATCH handler of `src/routes/event-student.js`.

Database reads and writes are modelled by explicit state passing on a `Db`
record; the PostgREST `.single()` / `.maybeSingle()` result conventions are
modelled by `single?` / `maybeSingle?`; JavaScript truthiness of the string
and integer fields that the handlers test with `if (x)` is modelled by
`jsTruthyStr` / `jsTruthyInt`.
-/

namespace Calendar

/-- Truthiness of a nullable/absent JS string: `undefined`, `null` and `""`
are falsy, every other string is truthy. -/
def jsTruthyStr : Option String → Bool
  | none => false
  | some s => s ≠ ""

/-- Truthiness of a nullable/absent JS integer: `undefined`, `null` and `0`
are falsy. -/
def jsTruthyInt : Option Int → Bool
  | none => false
  | some n => n ≠ 0

/-- PostgREST `.single()`: returns the row when the query matched exactly one
row, and an error (modelled as `none`) when it matched zero or several rows
(both cases surface as error code PGRST116 to the handlers). -/
def single? {α : Type} (l : List α) : Option α :=
  match l with
  | [x] => some x
  | _ => none

/-- Result of PostgREST `.maybeSingle()`: `ok none` for zero rows,
`ok (some x)` for one row, `err` for several rows. -/
inductive MaybeSingle (α : Type) where
  | err : MaybeSingle α
  | ok : Option α → MaybeSingle α
deriving DecidableEq

/-- PostgREST `.maybeSingle()` on the matched rows. -/
def maybeSingle? {α : Type} (l : List α) : MaybeSingle α :=
  match l with
  | [] => .ok none
  | [x] => .ok (some x)
  | _ => .err

/-- JS array subscript `l[i]` with a possibly negative index: any negative
index reads an absent property and yields `undefined` (`none`). -/
def listGetInt {α : Type} (l : List α) (i : Int) : Option α :=
  if i < 0 then none else l.get? i.toNat

/-- JS regex `\d` (non-unicode mode): exactly the ASCII digits. -/
def jsIsDigit (c : Char) : Bool :=
  '0' ≤ c && c ≤ '9'

/-- JS regex `.` without the `s` flag: any character except the four
line terminators. -/
def jsDotMatches (c : Char) : Bool :=
  c ≠ '\n' && c ≠ '\r' && c ≠ '\u2028' && c ≠ '\u2029'

/-- The datetime check of `router.post("/events")` and
`router.patch("/events/:id")` in `src/routes/event/event.js`:
`/^\d{4}-\d{2}-\d{2}T\d{2}:\d{2}:\d{2}.\d{3}Z$/.test(s)`.
The character between the seconds and the milliseconds is matched by an
unescaped `.`, hence by `jsDotMatches`. -/
def dateTimeRegex (s : String) : Bool :=
  match s.data with
  | [y1, y2, y3, y4, h1, n1, n2, h2, d1, d2, t1, o1, o2, c1, i1, i2, c2, s1, s2, p1, f1, f2, f3, z1] =>
    jsIsDigit y1 && jsIsDigit y2 && jsIsDigit y3 && jsIsDigit y4 &&
    (h1 = '-') && jsIsDigit n1 && jsIsDigit n2 &&
    (h2 = '-') && jsIsDigit d1 && jsIsDigit d2 &&
    (t1 = 'T') && jsIsDigit o1 && jsIsDigit o2 &&
    (c1 = ':') && jsIsDigit i1 && jsIsDigit i2 &&
    (c2 = ':') && jsIsDigit s1 && jsIsDigit s2 &&
    jsDotMatches p1 &&
    jsIsDigit f1 && jsIsDigit f2 && jsIsDigit f3 &&
    (z1 = 'Z')
  | _ => false

/-- JS regex hex class `[0-9a-f]` under the `/i` flag. -/
def jsIsHex (c : Char) : Bool :=
  jsIsDigit c || ('a' ≤ c && c ≤ 'f') || ('A' ≤ c && c ≤ 'F')

/-- The UUID check used by the handlers:
`/^[0-9a-f]{8}-[0-9a-f]{4}-[1-5][0-9a-f]{3}-[89ab][0-9a-f]{3}-[0-9a-f]{12}$/i`. -/
def uuidRegex (s : String) : Bool :=
  match s.data with
  | qa1 :: qa2 :: qa3 :: qa4 :: qa5 :: qa6 :: qa7 :: qa8 :: qh1 :: qb1 :: qb2 :: qb3 :: qb4 :: qh2 :: qv1 :: qc1 :: qc2 :: qc3 :: qh3 :: qy1 :: qd1 :: qd2 :: qd3 :: qh4 :: qe1 :: qe2 :: qe3 :: qe4 :: qe5 :: qe6 :: qe7 :: qe8 :: qe9 :: qe10 :: qe11 :: qe12 :: [] =>
    jsIsHex qa1 && jsIsHex qa2 && jsIsHex qa3 && jsIsHex qa4 &&
    jsIsHex qa5 && jsIsHex qa6 && jsIsHex qa7 && jsIsHex qa8 &&
    (qh1 = '-') && jsIsHex qb1 && jsIsHex qb2 && jsIsHex qb3 && jsIsHex qb4 &&
    (qh2 = '-') && ('1' ≤ qv1 && qv1 ≤ '5') && jsIsHex qc1 && jsIsHex qc2 && jsIsHex qc3 &&
    (qh3 = '-') && (qy1 = '8' || qy1 = '9' || qy1 = 'a' || qy1 = 'b' || qy1 = 'A' || qy1 = 'B') &&
    jsIsHex qd1 && jsIsHex qd2 && jsIsHex qd3 &&
    (qh4 = '-') && jsIsHex qe1 && jsIsHex qe2 && jsIsHex qe3 && jsIsHex qe4 &&
    jsIsHex qe5 && jsIsHex qe6 && jsIsHex qe7 && jsIsHex qe8 &&
    jsIsHex qe9 && jsIsHex qe10 && jsIsHex qe11 && jsIsHex qe12
  | _ => false

/-- One element of the `event.slots` JSON column. The live handlers in
`misc/misc.js` only ever read and write `user`; `maxUsers` and `currentUsers`
are carried along by the object spread. -/
structure Slot where
  maxUsers : Option Int := none
  currentUsers : Option Int := none
  user : Option String := none
deriving DecidableEq

/-- A row of the `event` table (§3 of the data model). -/
structure Event where
  id : Int
  title : String := ""
  event_datetime : String := ""
  duration_minutes : Int := 0
  description : Option String := none
  event_type : String := "other"
  report : Option String := none
  id_creator : String := ""
  id_prom : Option String := none
  location : Option String := none
  slot_duration : Int := 30
  allow_multiple_users : Bool := false
  target_promotions : Option (List String) := none
  slots : Option (List Slot) := some []
deriving DecidableEq

/-- A row of the `event_student` table. -/
structure EventStudentRow where
  id : Int
  id_student : String
  id_event : Int
deriving DecidableEq

/-- The relational store, with fault-injection flags for the two delete
statements of `DELETE /events/:id` (a `true` flag makes the corresponding
Supabase call report an error and perform no deletion). -/
structure Db where
  events : List Event := []
  eventStudents : List EventStudentRow := []
  nextRowId : Int := 1
  failEventStudentDelete : Bool := false
  failEventDelete : Bool := false

/-- Responses of the slot register/unregister handlers of `misc/misc.js`. -/
inductive SlotResp where
  | invalidInput
  | eventNotFound
  | slotNotFound
  | slotTaken
  | alreadyHasSlot
  | notYourSlot
  | thrown
  | ok (updated_slots : List Slot)
deriving DecidableEq

/-- HTTP status code of each slot-handler response. `thrown` is the
`catch (err)` branch reached when the handler body throws. -/
def SlotResp.status : SlotResp → Nat
  | .invalidInput => 400
  | .eventNotFound => 404
  | .slotNotFound => 404
  | .slotTaken => 409
  | .alreadyHasSlot => 409
  | .notYourSlot => 403
  | .thrown => 500
  | .ok _ => 200

/-- `POST /events/:eventId/slots/:slotIndex/register` of
`src/routes/event/misc/misc.js` (after the `parseInt` guards): looks up the
event, checks `slotIndexInt >= event.slots.length`, rejects a truthy
`slots[slotIndexInt].user`, rejects a requester that `findIndex` locates in
some slot, then writes back a copy of the slot list with only `user` set at
the target index. A negative index passes the length check, so reading
`.user` of the `undefined` element throws (`thrown`, status 500). -/
def registerSlot (db : Db) (eventIdInt slotIndexInt : Int) (id_student : String) : SlotResp × Db :=
  if id_student = "" then (.invalidInput, db)
  else
    match single? (db.events.filter (fun e => e.id = eventIdInt)) with
    | none => (.eventNotFound, db)
    | some event =>
      match event.slots with
      | none => (.slotNotFound, db)
      | some slots =>
        if slotIndexInt ≥ (slots.length : Int) then (.slotNotFound, db)
        else
          match listGetInt slots slotIndexInt with
          | none => (.thrown, db)
          | some slot =>
            if jsTruthyStr slot.user then (.slotTaken, db)
            else if slots.any (fun sl => sl.user = some id_student) then (.alreadyHasSlot, db)
            else
              let updatedSlots := slots.set slotIndexInt.toNat { slot with user := some id_student }
              (.ok updatedSlots,
               { db with
                   events := db.events.map (fun e =>
                     if e.id = eventIdInt then { e with slots := some updatedSlots } else e) })

/-- `DELETE /events/:eventId/slots/:slotIndex/unregister` of
`src/routes/event/misc/misc.js` (after the `parseInt` guards): same lookup
and bounds check as `registerSlot`, then a strict `!==` ownership test, then
writes back a copy of the slot list with only `user` cleared at the target
index. -/
def unregisterSlot (db : Db) (eventIdInt slotIndexInt : Int) (id_student : String) : SlotResp × Db :=
  if id_student = "" then (.invalidInput, db)
  else
    match single? (db.events.filter (fun e => e.id = eventIdInt)) with
    | none => (.eventNotFound, db)
    | some event =>
      match event.slots with
      | none => (.slotNotFound, db)
      | some slots =>
        if slotIndexInt ≥ (slots.length : Int) then (.slotNotFound, db)
        else
          match listGetInt slots slotIndexInt with
          | none => (.thrown, db)
          | some slot =>
            if slot.user ≠ some id_student then (.notYourSlot, db)
            else
              let updatedSlots := slots.set slotIndexInt.toNat { slot with user := none }
              (.ok updatedSlots,
               { db with
                   events := db.events.map (fun e =>
                     if e.id = eventIdInt then { e with slots := some updatedSlots } else e) })

/-- The request-body value of `target_promotions`: the handlers distinguish a
missing key (`undef`), an explicit JSON `null`, and an array of promotion
ids. -/
inductive TPField where
  | undef
  | null
  | arr (promotions : List String)
deriving DecidableEq

/-- One outbound HTTP call to the profile service. -/
inductive SvcCall where
  | active
  | promo (promotionId : String)
  | profileLookup (profileId : String)
deriving DecidableEq

/-- Observable outcome of one resolver run: the `event_student` pairs it
inserts and the profile-service calls it makes, in order. -/
structure ResolveOut where
  inserts : List (String × Int) := []
  calls : List SvcCall := []
deriving DecidableEq

/-- Student record returned by `GET /students/active` as consumed by the
`event/event.js` resolver (`student.id_user`). -/
structure ActiveStudentV1 where
  id_user : String
deriving DecidableEq

/-- The nested profile object of a promotion-roster record as consumed by
the `event/event.js` resolver (`student.profile.id_user`). -/
structure ProfileRefV1 where
  id_user : String
deriving DecidableEq

/-- Student record returned by `GET /students/promotion/:id` as consumed by
the `event/event.js` resolver. -/
structure PromoStudentV1 where
  profile : ProfileRefV1
deriving DecidableEq

/-- The profile service as seen by the `event/event.js` resolver. -/
structure Env1 where
  activeStudents : List ActiveStudentV1
  promoStudents : String → List PromoStudentV1

/-- `assignStudentsToEvent` of `src/routes/event/event.js`: `null` fetches
the active roster and inserts one row per student; a falsy value or an empty
array is the skip path (no call, no insert); a non-empty array fetches each
promotion roster in order and inserts one row per returned record. -/
def assignStudentsToEventV1 (env : Env1) (eventId : Int) (targetPromotions : TPField) : ResolveOut :=
  match targetPromotions with
  | .null =>
    { inserts := env.activeStudents.map (fun student => (student.id_user, eventId)),
      calls := [.active] }
  | .undef => {}
  | .arr [] => {}
  | .arr (p :: ps) =>
    { inserts := (p :: ps).flatMap (fun promotionId =>
        (env.promoStudents promotionId).map (fun student => (student.profile.id_user, eventId))),
      calls := (p :: ps).map .promo }

/-- Student record as consumed by the `unnamed/part_000` resolver: a direct
`id_user` or a `id_user_profile` reference for a secondary lookup. -/
structure StudentV2 where
  id_user : Option String := none
  id_user_profile : Option String := none
deriving DecidableEq

/-- Response body of `GET /profile/:id`. -/
structure ProfileV2 where
  id_user : Option String := none
deriving DecidableEq

/-- The profile service as seen by the `unnamed/part_000` resolver. -/
structure Env2 where
  activeStudents : List StudentV2
  promoStudents : String → List StudentV2
  profileById : String → Option ProfileV2

/-- Identity resolution for one student record in the `unnamed/part_000`
resolver: prefer a truthy `id_user`; otherwise, when `id_user_profile` is
truthy, call `getProfileById` and take a truthy `id_user` from the response;
otherwise the record is dropped. Returns the resolved identity (if any) and
the profile-service calls made. -/
def resolveStudentV2 (env : Env2) (student : StudentV2) : Option String × List SvcCall :=
  if jsTruthyStr student.id_user then (student.id_user, [])
  else if jsTruthyStr student.id_user_profile then
    match student.id_user_profile with
    | some profileId =>
      (match env.profileById profileId with
       | some profileData => if jsTruthyStr profileData.id_user then profileData.id_user else none
       | none => none,
       [.profileLookup profileId])
    | none => (none, [])
  else (none, [])

/-- `assignStudentsToEvent` of `unnamed/part_000`: `null`, `undefined` and
the empty array all fetch the full active roster; a non-empty array fetches
each promotion roster. Each record then goes through `resolveStudentV2`, and
a pair is kept only when no `event_student` row for it exists (the
`.single()` existence probe). -/
def assignStudentsToEventV2 (env : Env2) (rows : List EventStudentRow) (eventId : Int)
    (targetPromotions : TPField) : ResolveOut :=
  let fetched : List StudentV2 × List SvcCall :=
    match targetPromotions with
    | .null => (env.activeStudents, [.active])
    | .undef => (env.activeStudents, [.active])
    | .arr [] => (env.activeStudents, [.active])
    | .arr (p :: ps) =>
      ((p :: ps).flatMap (fun promotionId => env.promoStudents promotionId),
       (p :: ps).map .promo)
  let studentEventInserts : List (String × Int) :=
    fetched.1.filterMap (fun student => (resolveStudentV2 env student).1.map (fun u => (u, eventId)))
  let resolutionCalls : List SvcCall := fetched.1.flatMap (fun student => (resolveStudentV2 env student).2)
  let newAssignments := studentEventInserts.filter (fun pr =>
    single? (rows.filter (fun r => r.id_student = pr.1 ∧ r.id_event = pr.2)) = none)
  { inserts := newAssignments, calls := fetched.2 ++ resolutionCalls }

/-- Request body of `PATCH /events/:id`. `none` is an absent key
(JS `undefined`); doubly-optional fields distinguish an explicit JSON `null`
from an absent key where the handler tests `!== undefined`. -/
structure PatchBody where
  title : Option String := none
  event_datetime : Option String := none
  duration_minutes : Option Int := none
  description : Option String := none
  event_type : Option String := none
  report : Option String := none
  id_prom : Option String := none
  location : Option (Option String) := none
  slot_duration : Option (Option Int) := none
  allow_multiple_users : Option Bool := none
  target_promotions : TPField := .undef
  slots : Option (Option (List Slot)) := none
deriving DecidableEq

/-- The `updateData` object accumulated by `PATCH /events/:id`: a field is
`some` exactly when the handler sets it. -/
structure UpdateData where
  title : Option String := none
  event_datetime : Option String := none
  duration_minutes : Option Int := none
  description : Option String := none
  event_type : Option String := none
  report : Option String := none
  id_prom : Option String := none
  location : Option (Option String) := none
  slot_duration : Option Int := none
  allow_multiple_users : Option Bool := none
  target_promotions : Option (Option (List String)) := none
  slots : Option (Option (List Slot)) := none
deriving DecidableEq

/-- Error responses of the validation prefix of `PATCH /events/:id`. -/
inductive UpdErr where
  | noFields
  | emptyTitle
  | titleConflict
  | badDatetime
  | badDuration
  | badEventType
  | badSlotDuration
deriving DecidableEq

/-- HTTP status code of each validation error. -/
def UpdErr.status : UpdErr → Nat
  | .noFields => 400
  | .emptyTitle => 400
  | .titleConflict => 409
  | .badDatetime => 400
  | .badDuration => 400
  | .badEventType => 400
  | .badSlotDuration => 400

/-- The closed `allowedTypes` list of the event handlers. -/
def allowedTypes : List String :=
  ["follow-up", "kick-off", "keynote", "hub-talk", "other"]

/-- The `if (title) { ... }` block of `PATCH /events/:id`: a truthy title is
rejected when blank after trim, checked for uniqueness against the other
events, and otherwise recorded in `updateData`. -/
def titleStep (db : Db) (id : Int) (b : PatchBody) : Except UpdErr (Option String) :=
  match b.title with
  | some t =>
    if t = "" then .ok none
    else if t.trim = "" then .error .emptyTitle
    else
      match single? (db.events.filter (fun e => e.title = t ∧ ¬ (e.id = id))) with
      | some _ => .error .titleConflict
      | none => .ok (some t)
  | none => .ok none

/-- The `if (event_datetime) { ... }` block: a truthy value must match
`dateTimeRegex`. -/
def datetimeStep (b : PatchBody) : Except UpdErr (Option String) :=
  match b.event_datetime with
  | some s =>
    if s = "" then .ok none
    else if dateTimeRegex s then .ok (some s) else .error .badDatetime
  | none => .ok none

/-- The `if (duration_minutes) { ... }` block: a truthy value must be a
positive integer. -/
def durationStep (b : PatchBody) : Except UpdErr (Option Int) :=
  match b.duration_minutes with
  | some n =>
    if n = 0 then .ok none
    else if n ≤ 0 then .error .badDuration else .ok (some n)
  | none => .ok none

/-- The `if (event_type) { ... }` block: a truthy value must belong to
`allowedTypes`. -/
def eventTypeStep (b : PatchBody) : Except UpdErr (Option String) :=
  match b.event_type with
  | some t =>
    if t = "" then .ok none
    else if allowedTypes.contains t then .ok (some t) else .error .badEventType
  | none => .ok none

/-- The `if (slot_duration !== undefined) { ... }` block: a present value
must be a positive integer (an explicit JSON `null` fails
`Number.isInteger`). -/
def slotDurationStep (b : PatchBody) : Except UpdErr (Option Int) :=
  match b.slot_duration with
  | some (some n) => if n ≤ 0 then .error .badSlotDuration else .ok (some n)
  | some none => .error .badSlotDuration
  | none => .ok none

/-- The validation and `updateData`-building prefix of `PATCH /events/:id`
(textually the same in `event/event.js` and `unnamed/part_000`): the
empty-body check, then one conditional block per field in source order. -/
def buildUpdateData (db : Db) (id : Int) (b : PatchBody) : Except UpdErr UpdateData :=
  if !(jsTruthyStr b.title) && !(jsTruthyStr b.event_datetime) && !(jsTruthyInt b.duration_minutes)
      && !(jsTruthyStr b.description) && !(jsTruthyStr b.event_type) && !(jsTruthyStr b.report)
      && !(jsTruthyStr b.id_prom) && b.location.isNone && b.slot_duration.isNone
      && b.allow_multiple_users.isNone && decide (b.target_promotions = TPField.undef)
      && b.slots.isNone then
    .error .noFields
  else
    match titleStep db id b with
    | .error e => .error e
    | .ok uTitle =>
      match datetimeStep b with
      | .error e => .error e
      | .ok uDatetime =>
        match durationStep b with
        | .error e => .error e
        | .ok uDuration =>
          match eventTypeStep b with
          | .error e => .error e
          | .ok uType =>
            match slotDurationStep b with
            | .error e => .error e
            | .ok uSlotDur =>
              .ok { title := uTitle,
                    event_datetime := uDatetime,
                    duration_minutes := uDuration,
                    description := if jsTruthyStr b.description then b.description else none,
                    event_type := uType,
                    report := if jsTruthyStr b.report then b.report else none,
                    id_prom := if jsTruthyStr b.id_prom then b.id_prom else none,
                    location := b.location,
                    slot_duration := uSlotDur,
                    allow_multiple_users := b.allow_multiple_users,
                    target_promotions :=
                      match b.target_promotions with
                      | .undef => none
                      | .null => some none
                      | .arr l => some (some l),
                    slots := b.slots }

/-- Applying the `updateData` object to an event row (the database
`UPDATE`): only the set fields change. -/
def applyUpdate (e : Event) (u : UpdateData) : Event :=
  { e with
      title := u.title.getD e.title,
      event_datetime := u.event_datetime.getD e.event_datetime,
      duration_minutes := u.duration_minutes.getD e.duration_minutes,
      description := match u.description with | some d => some d | none => e.description,
      event_type := u.event_type.getD e.event_type,
      report := match u.report with | some r => some r | none => e.report,
      id_prom := match u.id_prom with | some p => some p | none => e.id_prom,
      location := u.location.getD e.location,
      slot_duration := u.slot_duration.getD e.slot_duration,
      allow_multiple_users := u.allow_multiple_users.getD e.allow_multiple_users,
      target_promotions := u.target_promotions.getD e.target_promotions,
      slots := u.slots.getD e.slots }

/-- Batch insert of (id_student, id_event) pairs into `event_student`, with
server-generated row ids. -/
def insertPairs (db : Db) (pairs : List (String × Int)) : Db :=
  match pairs with
  | [] => db
  | pr :: rest =>
    insertPairs
      { db with
          eventStudents :=
            db.eventStudents ++ [{ id := db.nextRowId, id_student := pr.1, id_event := pr.2 }],
          nextRowId := db.nextRowId + 1 }
      rest

/-- The rows created by `insertPairs` starting from a given fresh id. -/
def mkRows (n : Int) (pairs : List (String × Int)) : List EventStudentRow :=
  match pairs with
  | [] => []
  | pr :: rest => { id := n, id_student := pr.1, id_event := pr.2 } :: mkRows (n + 1) rest

/-- Result of an update-style handler: status, response payload, new store. -/
structure UpdResult where
  status : Nat
  data : Option Event := none
  db : Db

/-- `PATCH /events/:id` of `src/routes/event/event.js`. After a successful
row update, the student assignments are deleted and rebuilt only under
`target_promotions && target_promotions.length > 0`, i.e. only when the body
carried a non-empty array. -/
def updateEventV1 (env : Env1) (db : Db) (id : Int) (b : PatchBody) : UpdResult :=
  match buildUpdateData db id b with
  | .error e => { status := e.status, db := db }
  | .ok u =>
    let events' := db.events.map (fun e => if e.id = id then applyUpdate e u else e)
    match single? ((db.events.filter (fun e => e.id = id)).map (fun e => applyUpdate e u)) with
    | none => { status := 404, db := { db with events := events' } }
    | some data =>
      let db1 := { db with events := events' }
      match b.target_promotions with
      | .arr (p :: ps) =>
        let db2 :=
          { db1 with eventStudents := db1.eventStudents.filter (fun r => ¬ (r.id_event = data.id)) }
        let out := assignStudentsToEventV1 env data.id (.arr (p :: ps))
        { status := 200, data := some data, db := insertPairs db2 out.inserts }
      | _ => { status := 200, data := some data, db := db1 }

/-- `PATCH /events/:id` of `unnamed/part_000`: after a successful row
update, whenever the `target_promotions` key was present in the request
(`!== undefined`, explicit `null` included), all assignments of the event
are deleted and `assignStudentsToEventV2` is re-run with the new value. -/
def updateEventV2 (env : Env2) (db : Db) (id : Int) (b : PatchBody) : UpdResult :=
  match buildUpdateData db id b with
  | .error e => { status := e.status, db := db }
  | .ok u =>
    let events' := db.events.map (fun e => if e.id = id then applyUpdate e u else e)
    match single? ((db.events.filter (fun e => e.id = id)).map (fun e => applyUpdate e u)) with
    | none => { status := 404, db := { db with events := events' } }
    | some data =>
      let db1 := { db with events := events' }
      match b.target_promotions with
      | .undef => { status := 200, data := some data, db := db1 }
      | tp =>
        let db2 :=
          { db1 with eventStudents := db1.eventStudents.filter (fun r => ¬ (r.id_event = data.id)) }
        let out := assignStudentsToEventV2 env db2.eventStudents data.id tp
        { status := 200, data := some data, db := insertPairs db2 out.inserts }

/-- Responses of `DELETE /events/:id`. -/
inductive DelResp where
  | storeFailure
  | notFound
  | okDel (deletedEvent : Event)
deriving DecidableEq

/-- HTTP status code of each delete response. -/
def DelResp.status : DelResp → Nat
  | .storeFailure => 500
  | .notFound => 404
  | .okDel _ => 200

/-- `DELETE /events/:id` of `src/routes/event/event.js` (after the
`parseInt` guard): step 1 deletes the `event_student` rows of the event and
aborts with a 500 response — leaving the store untouched — when that
statement fails; step 2 deletes the event row itself, answering 404
(PGRST116) when no row matches and 200 with the deleted snapshot
otherwise. -/
def deleteEvent (db : Db) (eventId : Int) : DelResp × Db :=
  if db.failEventStudentDelete then (.storeFailure, db)
  else
    let db1 := { db with eventStudents := db.eventStudents.filter (fun r => ¬ (r.id_event = eventId)) }
    if db.failEventDelete then (.storeFailure, db1)
    else
      let db2 := { db1 with events := db1.events.filter (fun e => ¬ (e.id = eventId)) }
      match single? (db1.events.filter (fun e => e.id = eventId)) with
      | none => (.notFound, db2)
      | some deletedEvent => (.okDel deletedEvent, db2)

/-- Request body of `PATCH /event-students/:id`. -/
structure ESPatchBody where
  id_student : Option String := none
  id_event : Option Int := none
deriving DecidableEq

/-- Responses of `PATCH /event-students/:id`. -/
inductive ESResp where
  | noFields
  | invalidStudentId
  | eventNotFound
  | rowNotFound
  | dupCheckFailure
  | conflict
  | updateFailure
  | okUpd (row : EventStudentRow)
deriving DecidableEq

/-- HTTP status code of each event-student update response. -/
def ESResp.status : ESResp → Nat
  | .noFields => 400
  | .invalidStudentId => 400
  | .eventNotFound => 404
  | .rowNotFound => 404
  | .dupCheckFailure => 500
  | .conflict => 409
  | .updateFailure => 500
  | .okUpd _ => 200

/-- The `if (id_student) { ... }` block of `PATCH /event-students/:id`: a
truthy value must match the UUID regex and is then recorded in
`updateData`. -/
def esStudentStep (b : ESPatchBody) : Except ESResp (Option String) :=
  match b.id_student with
  | some t =>
    if t = "" then .ok none
    else if uuidRegex t then .ok (some t) else .error .invalidStudentId
  | none => .ok none

/-- The `if (id_event) { ... }` block of `PATCH /event-students/:id`: a
truthy value must name an existing event (404 otherwise) and is then
recorded in `updateData`. -/
def esEventStep (db : Db) (b : ESPatchBody) : Except ESResp (Option Int) :=
  match b.id_event with
  | some ev =>
    if ev = 0 then .ok none
    else
      match single? (db.events.filter (fun e => e.id = ev)) with
      | none => .error .eventNotFound
      | some _ => .ok (some ev)
  | none => .ok none

/-- `PATCH /event-students/:id` of `src/routes/event-student.js`: requires
at least one truthy field, validates them, loads the current row, recomputes
the effective (student, event) pair with `updateData.x || currentRow.x`,
probes for a different row holding that pair (`.neq("id", id).maybeSingle()`)
and either answers 409 or applies `updateData` to the row. -/
def updateEventStudent (db : Db) (id : Int) (b : ESPatchBody) : ESResp × Db :=
  if !(jsTruthyStr b.id_student) && !(jsTruthyInt b.id_event) then (.noFields, db)
  else
    match esStudentStep b with
    | .error r => (r, db)
    | .ok uStud =>
      match esEventStep db b with
      | .error r => (r, db)
      | .ok uEv =>
        match single? (db.eventStudents.filter (fun r => r.id = id)) with
        | none => (.rowNotFound, db)
        | some currentRow =>
          let finalStudentId := uStud.getD currentRow.id_student
          let finalEventId := uEv.getD currentRow.id_event
          match maybeSingle? (db.eventStudents.filter (fun r =>
              r.id_student = finalStudentId ∧ r.id_event = finalEventId ∧ ¬ (r.id = id))) with
          | .err => (.dupCheckFailure, db)
          | .ok (some _) => (.conflict, db)
          | .ok none =>
            let newRows := db.eventStudents.map (fun r =>
              if r.id = id then
                { r with id_student := uStud.getD r.id_student, id_event := uEv.getD r.id_event }
              else r)
            match single? (newRows.filter (fun r => r.id = id)) with
            | none => (.updateFailure, { db with eventStudents := newRows })
            | some row => (.okUpd row, { db with eventStudents := newRows })

/-- Number of slots of an event whose `user` field equals the given student
id. -/
def occupiedCount (l : List Slot) (s : String) : Nat :=
  l.countP (fun sl => sl.user = some s)

/-- Per-event slot invariant: every real student id (the empty string is not
accepted by the handlers) occupies at most one slot. -/
def SlotsInv (l : List Slot) : Prop :=
  ∀ s : String, s ≠ "" → occupiedCount l s ≤ 1

/-- Store-wide slot invariant. -/
def DbInv (db : Db) : Prop :=
  ∀ ev ∈ db.events, ∀ l, ev.slots = some l → SlotsInv l

/-- A sequence of register requests (eventId, slotIndex, studentId) played
against the store: each request that the handler rejects leaves the store as
it was, each accepted one commits its write. -/
def applyRegisters (db : Db) (reqs : List (Int × Int × String)) : Db :=
  reqs.foldl (fun d r => (registerSlot d r.1 r.2.1 r.2.2).2) db

/-! ## Helper lemmas -/

lemma single?_eq_some {α : Type} {l : List α} {a : α} (h : single? l = some a) : l = [a] := by
  match l with
  | [] => simp [single?] at h
  | [x] => simp [single?] at h; rw [h]
  | x :: y :: ys => simp [single?] at h

lemma listGetInt_some {α : Type} {l : List α} {i : Int} {a : α}
    (h : listGetInt l i = some a) :
    0 ≤ i ∧ i.toNat < l.length ∧ l.get? i.toNat = some a := by
  by_cases hi : i < 0
  · simp [listGetInt, hi] at h
  · have hg : l.get? i.toNat = some a := by simpa [listGetInt, hi] using h
    exact ⟨by omega, (List.get?_eq_some.mp hg).1, hg⟩

lemma mem_of_single?_filter {α : Type} {l : List α} {p : α → Bool} {a : α}
    (h : single? (l.filter p) = some a) : a ∈ l ∧ p a = true := by
  have hf := single?_eq_some h
  have : a ∈ l.filter p := by rw [hf]; exact List.mem_singleton.mpr rfl
  exact ⟨(List.mem_filter.mp this).1, (List.mem_filter.mp this).2⟩

lemma registerSlot_found (db : Db) (e i : Int) (s : String) (ev : Event) (l : List Slot) (slot : Slot)
    (hs : ¬ (s = ""))
    (hev : single? (db.events.filter (fun x => x.id = e)) = some ev)
    (hsl : ev.slots = some l)
    (hget : listGetInt l i = some slot) :
    registerSlot db e i s =
      if jsTruthyStr slot.user then (.slotTaken, db)
      else if l.any (fun sl => sl.user = some s) then (.alreadyHasSlot, db)
      else
        (.ok (l.set i.toNat { slot with user := some s }),
         { db with events := db.events.map (fun x =>
             if x.id = e then { x with slots := some (l.set i.toNat { slot with user := some s }) } else x) }) := by
  obtain ⟨hi0, hlt, hg⟩ := listGetInt_some hget
  have hbound : ¬ (i ≥ (l.length : Int)) := by omega
  unfold registerSlot
  rw [if_neg hs, hev]
  dsimp only
  rw [hsl]
  dsimp only
  rw [if_neg hbound, hget]

lemma unregisterSlot_found (db : Db) (e i : Int) (s : String) (ev : Event) (l : List Slot) (slot : Slot)
    (hs : ¬ (s = ""))
    (hev : single? (db.events.filter (fun x => x.id = e)) = some ev)
    (hsl : ev.slots = some l)
    (hget : listGetInt l i = some slot) :
    unregisterSlot db e i s =
      if slot.user ≠ some s then (.notYourSlot, db)
      else
        (.ok (l.set i.toNat { slot with user := none }),
         { db with events := db.events.map (fun x =>
             if x.id = e then { x with slots := some (l.set i.toNat { slot with user := none }) } else x) }) := by
  obtain ⟨hi0, hlt, hg⟩ := listGetInt_some hget
  have hbound : ¬ (i ≥ (l.length : Int)) := by omega
  unfold unregisterSlot
  rw [if_neg hs, hev]
  dsimp only
  rw [hsl]
  dsimp only
  rw [if_neg hbound, hget]

lemma registerSlot_neg_index (db : Db) (e i : Int) (s : String) (ev : Event) (l : List Slot)
    (hi : i < 0)
    (hs : ¬ (s = ""))
    (hev : single? (db.events.filter (fun x => x.id = e)) = some ev)
    (hsl : ev.slots = some l) :
    registerSlot db e i s = (.thrown, db) := by
  have hbound : ¬ (i ≥ (l.length : Int)) := by omega
  have hnone : listGetInt l i = (none : Option Slot) := by simp [listGetInt, hi]
  unfold registerSlot
  rw [if_neg hs, hev]
  dsimp only
  rw [hsl]
  dsimp only
  rw [if_neg hbound, hnone]

lemma unregisterSlot_neg_index (db : Db) (e i : Int) (s : String) (ev : Event) (l : List Slot)
    (hi : i < 0)
    (hs : ¬ (s = ""))
    (hev : single? (db.events.filter (fun x => x.id = e)) = some ev)
    (hsl : ev.slots = some l) :
    unregisterSlot db e i s = (.thrown, db) := by
  have hbound : ¬ (i ≥ (l.length : Int)) := by omega
  have hnone : listGetInt l i = (none : Option Slot) := by simp [listGetInt, hi]
  unfold unregisterSlot
  rw [if_neg hs, hev]
  dsimp only
  rw [hsl]
  dsimp only
  rw [if_neg hbound, hnone]

lemma countP_set_le_of_neg (p : Slot → Bool) (a : Slot) (ha : p a = false) :
    ∀ (l : List Slot) (n : Nat), (l.set n a).countP p ≤ l.countP p := by
  intro l
  induction l with
  | nil => intro n; simp
  | cons x xs ih =>
    intro n
    cases n with
    | zero => simp [List.countP_cons, ha]
    | succ m =>
      simp only [List.set, List.countP_cons]
      have := ih m
      omega

lemma countP_set_of_zero (p : Slot → Bool) (a : Slot) (ha : p a = true) :
    ∀ (l : List Slot) (n : Nat), l.countP p = 0 → n < l.length → (l.set n a).countP p = 1 := by
  intro l
  induction l with
  | nil => intro n h0 hn; simp at hn
  | cons x xs ih =>
    intro n h0 hn
    simp only [List.countP_cons] at h0
    have hx0 : xs.countP p = 0 := by omega
    have hpx : (if p x then 1 else 0) = 0 := by omega
    cases n with
    | zero => simp [List.countP_cons, ha, hx0]
    | succ m =>
      simp only [List.set, List.countP_cons]
      rw [ih m hx0 (by simpa using Nat.lt_of_succ_lt_succ hn), hpx]

lemma any_eq_false_countP (l : List Slot) (s : String)
    (h : l.any (fun sl => sl.user = some s) = false) :
    l.countP (fun sl => sl.user = some s) = 0 := by
  rw [List.countP_eq_zero]
  intro a ha
  rw [List.any_eq_false] at h
  exact h a ha

lemma registerSlot_snd_preserves_inv (db : Db) (e i : Int) (s : String)
    (hinv : DbInv db) : DbInv (registerSlot db e i s).2 := by
  unfold registerSlot
  split
  · exact hinv
  split
  · exact hinv
  rename_i hs event hev
  split
  · exact hinv
  rename_i slots hsl
  split
  · exact hinv
  rename_i hbound
  split
  · exact hinv
  rename_i slot hget
  split
  · exact hinv
  rename_i htaken
  split
  · exact hinv
  rename_i hany
  have hlt : i.toNat < slots.length := (listGetInt_some hget).2.1
  intro ev' hmem l' hl'
  rcases List.mem_map.mp hmem with ⟨x, hx, rfl⟩
  by_cases hid : x.id = e
  · rw [if_pos hid] at hl'
    simp only at hl'
    injection hl' with hl'
    subst hl'
    have hmemev := (mem_of_single?_filter hev).1
    have hSlots : SlotsInv slots := hinv event hmemev slots hsl
    intro t ht
    unfold occupiedCount
    rw [Bool.not_eq_true] at htaken hany
    by_cases hts : t = s
    · subst hts
      have h0 := any_eq_false_countP slots t hany
      rw [countP_set_of_zero _ _ (by simp) slots i.toNat h0 hlt]
    · have hle := countP_set_le_of_neg (fun sl => sl.user = some t)
        { slot with user := some s } (by simp [Ne.symm hts]) slots i.toNat
      exact le_trans hle (hSlots t ht)
  · rw [if_neg hid] at hl'
    exact hinv x hx l' hl'

lemma applyRegisters_preserves_inv (db : Db) (reqs : List (Int × Int × String))
    (hinv : DbInv db) : DbInv (applyRegisters db reqs) := by
  induction reqs generalizing db with
  | nil => exact hinv
  | cons r rest ih =>
    exact ih _ (registerSlot_snd_preserves_inv db r.1 r.2.1 r.2.2 hinv)

lemma get?_set_self {α : Type} (l : List α) (n : Nat) (a : α) (h : n < l.length) :
    (l.set n a).get? n = some a := by
  induction l generalizing n with
  | nil => simp at h
  | cons x xs ih =>
    cases n with
    | zero => rfl
    | succ m => exact ih m (by simpa using Nat.lt_of_succ_lt_succ h)

lemma get?_set_ne {α : Type} (l : List α) (n m : Nat) (a : α) (h : ¬ (m = n)) :
    (l.set n a).get? m = l.get? m := by
  induction l generalizing n m with
  | nil => simp
  | cons x xs ih =>
    cases n with
    | zero =>
      cases m with
      | zero => exact absurd rfl h
      | succ k => rfl
    | succ n' =>
      cases m with
      | zero => rfl
      | succ k => exact ih n' k (by omega)

lemma insertPairs_eventStudents :
    ∀ (pairs : List (String × Int)) (db : Db),
      (insertPairs db pairs).eventStudents = db.eventStudents ++ mkRows db.nextRowId pairs := by
  intro pairs
  induction pairs with
  | nil => intro db; simp [insertPairs, mkRows]
  | cons pr rest ih =>
    intro db
    rw [insertPairs, ih]
    simp [mkRows, List.append_assoc]

lemma filter_map_id_preserving (l : List EventStudentRow) (id : Int)
    (f : EventStudentRow → EventStudentRow) (hf : ∀ r, (f r).id = r.id) :
    (l.map f).filter (fun r => r.id = id) = (l.filter (fun r => r.id = id)).map f := by
  induction l with
  | nil => rfl
  | cons x xs ih =>
    simp only [List.map_cons, List.filter_cons, hf x]
    by_cases h : x.id = id
    · simp [h, ih]
    · simp [h, ih]

/-! ## Claim theorems -/

/-- C6: the datetime check accepts "2025-07-29T16:15:15.000Z" and rejects
"2025-07-29 16:15:15+00" as documented, but the separator before the
milliseconds is an unescaped `.` in the regex, so the check also accepts
"2025-07-29T16:15:15x000Z": it does not enforce the literal-dot format its
own error message announces. -/
theorem dateTimeRegex_separator_not_literal_dot :
    dateTimeRegex "2025-07-29T16:15:15.000Z" = true ∧
    dateTimeRegex "2025-07-29 16:15:15+00" = false ∧
    dateTimeRegex "2025-07-29T16:15:15x000Z" = true :=
  ⟨rfl, rfl, rfl⟩

/-- C3 counterexample: a successful register on a slot whose stored
`currentUsers` is 0 returns the slot with `user` set but `currentUsers`
still 0 — the handler never increments the counter. -/
theorem register_leaves_currentUsers_unchanged_cex :
    (registerSlot
      { events := [{ id := 1,
                     slots := some [{ maxUsers := some 2, currentUsers := some 0, user := none }] }] }
      1 0 "stud-1").1
      = SlotResp.ok [{ maxUsers := some 2, currentUsers := some 0, user := some "stud-1" }] := rfl

/-- C3 (amended): a register that passes the occupancy checks persists and
returns the slot list updated only by `user := studentId` at the target index
(`currentUsers` and `maxUsers` are copied unchanged), and an unregister by
the occupant persists and returns the list with only `user := null` there
(`currentUsers` again untouched — there is no decrement). -/
theorem slot_register_unregister_set_only_user (db : Db) (e i : Int) (s : String)
    (ev : Event) (l : List Slot) (slot : Slot)
    (hev : single? (db.events.filter (fun x => x.id = e)) = some ev)
    (hsl : ev.slots = some l)
    (hget : listGetInt l i = some slot)
    (hs : ¬ (s = "")) :
    (jsTruthyStr slot.user = false → l.any (fun sl => sl.user = some s) = false →
       registerSlot db e i s =
         (.ok (l.set i.toNat { slot with user := some s }),
          { db with events := db.events.map (fun x =>
              if x.id = e then { x with slots := some (l.set i.toNat { slot with user := some s }) } else x) })) ∧
    (slot.user = some s →
       unregisterSlot db e i s =
         (.ok (l.set i.toNat { slot with user := none }),
          { db with events := db.events.map (fun x =>
              if x.id = e then { x with slots := some (l.set i.toNat { slot with user := none }) } else x) })) := by
  constructor
  · intro h1 h2
    rw [registerSlot_found db e i s ev l slot hs hev hsl hget,
        if_neg (by simp [h1]), if_neg (by simp [h2])]
  · intro h1
    rw [unregisterSlot_found db e i s ev l slot hs hev hsl hget, if_neg (by simp [h1])]

/-- Witness for C3 (amended), at a one-slot event occupied by "s1". -/
theorem slot_register_unregister_set_only_user_witness :
    (unregisterSlot
      { events := [{ id := 1,
                     slots := some [{ maxUsers := none, currentUsers := some 9, user := some "s1" }] }] }
      1 0 "s1").1
      = SlotResp.ok [{ maxUsers := none, currentUsers := some 9, user := none }] :=
  congrArg Prod.fst
    ((slot_register_unregister_set_only_user
      { events := [{ id := 1,
                     slots := some [{ maxUsers := none, currentUsers := some 9, user := some "s1" }] }] }
      1 0 "s1"
      { id := 1, slots := some [{ maxUsers := none, currentUsers := some 9, user := some "s1" }] }
      [{ maxUsers := none, currentUsers := some 9, user := some "s1" }]
      { maxUsers := none, currentUsers := some 9, user := some "s1" }
      rfl rfl rfl (by decide)).2 rfl)

/-- C4 counterexample: a slot whose occupancy has reached `maxUsers`
(`currentUsers = maxUsers = 1`) but whose `user` field is null is registered
with status 200 — no Conflict, the capacity model is never consulted. -/
theorem register_ignores_capacity_cex :
    (registerSlot
      { events := [{ id := 1,
                     slots := some [{ maxUsers := some 1, currentUsers := some 1, user := none }] }] }
      1 0 "stud-1").1.status = 200 := rfl

/-- C4 (amended): for an existing event and in-range slot index, register
answers 409 exactly when the target slot's `user` is truthy (regardless of
who set it, of `maxUsers`/`currentUsers`, and of `allow_multiple_users`,
none of which the handler reads) or the requester already occupies some slot
of the event. -/
theorem register_conflict_iff (db : Db) (e i : Int) (s : String)
    (ev : Event) (l : List Slot) (slot : Slot)
    (hev : single? (db.events.filter (fun x => x.id = e)) = some ev)
    (hsl : ev.slots = some l)
    (hget : listGetInt l i = some slot)
    (hs : ¬ (s = "")) :
    ((registerSlot db e i s).1.status = 409 ↔
      (jsTruthyStr slot.user = true ∨ l.any (fun sl => sl.user = some s) = true)) := by
  rw [registerSlot_found db e i s ev l slot hs hev hsl hget]
  by_cases h1 : jsTruthyStr slot.user = true
  · simp [h1, SlotResp.status]
  · by_cases h2 : l.any (fun sl => sl.user = some s) = true
    · simp [h1, h2, SlotResp.status]
    · simp [h1, h2, SlotResp.status]

/-- Witness for C4 (amended), at a slot taken by another student. -/
theorem register_conflict_iff_witness :
    ((registerSlot
      { events := [{ id := 2, slots := some [{ maxUsers := none, currentUsers := none, user := some "other" }] }] }
      2 0 "s1").1.status = 409 ↔
      (jsTruthyStr (some "other") = true ∨
        ([{ maxUsers := none, currentUsers := none, user := some "other" }] :
          List Slot).any (fun sl => sl.user = some "s1") = true)) :=
  register_conflict_iff
    { events := [{ id := 2, slots := some [{ maxUsers := none, currentUsers := none, user := some "other" }] }] }
    2 0 "s1"
    { id := 2, slots := some [{ maxUsers := none, currentUsers := none, user := some "other" }] }
    [{ maxUsers := none, currentUsers := none, user := some "other" }]
    { maxUsers := none, currentUsers := none, user := some "other" }
    rfl rfl rfl (by decide)

/-- C5: a register whose requester already occupies any slot of the event is
answered 409, and consequently no sequence of register requests can take a
store in which every student holds at most one slot per event to one in
which some student holds two. -/
theorem register_at_most_one_slot_per_student :
    (∀ (db : Db) (e i : Int) (s : String) (ev : Event) (l : List Slot) (slot : Slot),
       single? (db.events.filter (fun x => x.id = e)) = some ev →
       ev.slots = some l →
       listGetInt l i = some slot →
       ¬ (s = "") →
       l.any (fun sl => sl.user = some s) = true →
       (registerSlot db e i s).1.status = 409) ∧
    (∀ (db : Db) (reqs : List (Int × Int × String)), DbInv db → DbInv (applyRegisters db reqs)) := by
  constructor
  · intro db e i s ev l slot hev hsl hget hs hany
    rw [registerSlot_found db e i s ev l slot hs hev hsl hget]
    by_cases h1 : jsTruthyStr slot.user = true
    · simp [h1, SlotResp.status]
    · simp [h1, hany, SlotResp.status]
  · exact fun db reqs hinv => applyRegisters_preserves_inv db reqs hinv

/-- Witness for C5: "s1" holds slot 0, so registering "s1" at slot 1 is a
409; and the invariant survives a concrete request sequence. -/
theorem register_at_most_one_slot_per_student_witness :
    (registerSlot
      { events := [{ id := 1,
                     slots := some [{ maxUsers := none, currentUsers := none, user := some "s1" },
                                    { maxUsers := none, currentUsers := none, user := none }] }] }
      1 1 "s1").1.status = 409 ∧
    DbInv (applyRegisters
      { events := [{ id := 1,
                     slots := some [{ maxUsers := none, currentUsers := none, user := some "s1" },
                                    { maxUsers := none, currentUsers := none, user := none }] }] }
      [(1, 1, "s2"), (1, 1, "s3")]) := by
  constructor
  · exact register_at_most_one_slot_per_student.1
      { events := [{ id := 1,
                     slots := some [{ maxUsers := none, currentUsers := none, user := some "s1" },
                                    { maxUsers := none, currentUsers := none, user := none }] }] }
      1 1 "s1"
      { id := 1, slots := some [{ maxUsers := none, currentUsers := none, user := some "s1" },
                                { maxUsers := none, currentUsers := none, user := none }] }
      [{ maxUsers := none, currentUsers := none, user := some "s1" },
       { maxUsers := none, currentUsers := none, user := none }]
      { maxUsers := none, currentUsers := none, user := none }
      rfl rfl rfl (by decide) (by decide)
  · refine register_at_most_one_slot_per_student.2 _ _ ?_
    intro ev hmem l hl
    simp only [List.mem_singleton] at hmem
    subst hmem
    simp only at hl
    injection hl with hl
    subst hl
    intro t ht
    simp only [occupiedCount, List.countP_cons, List.countP_nil]
    by_cases hts : (some "s1" : Option String) = some t <;> simp [hts]

/-- C9: with an existing event, a non-empty slot list and a negative slot
index, the bounds check (`slotIndexInt >= slots.length` only) passes, the
handlers read a field of `undefined`, throw, and answer 500 — not 404. -/
theorem slot_negative_index_throws_500 (db : Db) (e i : Int) (s : String)
    (ev : Event) (l : List Slot)
    (hi : i < 0)
    (hs : ¬ (s = ""))
    (hev : single? (db.events.filter (fun x => x.id = e)) = some ev)
    (hsl : ev.slots = some l)
    (hne : l ≠ []) :
    (registerSlot db e i s).1 = .thrown ∧ (unregisterSlot db e i s).1 = .thrown ∧
    SlotResp.status .thrown = 500 ∧ ¬ (SlotResp.status .thrown = 404) := by
  refine ⟨?_, ?_, rfl, by decide⟩
  · rw [registerSlot_neg_index db e i s ev l hi hs hev hsl]
  · rw [unregisterSlot_neg_index db e i s ev l hi hs hev hsl]

/-- Witness for C9 at index -1 of a one-slot event. -/
theorem slot_negative_index_throws_500_witness :
    (registerSlot
      { events := [{ id := 3, slots := some [{ maxUsers := none, currentUsers := none, user := none }] }] }
      3 (-1) "s1").1 = SlotResp.thrown ∧
    (unregisterSlot
      { events := [{ id := 3, slots := some [{ maxUsers := none, currentUsers := none, user := none }] }] }
      3 (-1) "s1").1 = SlotResp.thrown ∧
    SlotResp.status .thrown = 500 ∧ ¬ (SlotResp.status .thrown = 404) :=
  slot_negative_index_throws_500
    { events := [{ id := 3, slots := some [{ maxUsers := none, currentUsers := none, user := none }] }] }
    3 (-1) "s1"
    { id := 3, slots := some [{ maxUsers := none, currentUsers := none, user := none }] }
    [{ maxUsers := none, currentUsers := none, user := none }]
    (by decide) (by decide) rfl rfl (by decide)

/-- C10: a successful register or unregister leaves `event_student`, the id
counter and every other event untouched, rewrites only the `slots` column of
the target event, and within the slot list changes only the target index,
where every field except `user` is copied from the stored slot. -/
theorem slot_write_frame (db : Db) (e i : Int) (s : String)
    (ev : Event) (l : List Slot) (slot : Slot)
    (hev : single? (db.events.filter (fun x => x.id = e)) = some ev)
    (hsl : ev.slots = some l)
    (hget : listGetInt l i = some slot)
    (hs : ¬ (s = "")) :
    (jsTruthyStr slot.user = false → l.any (fun sl => sl.user = some s) = false →
       ((registerSlot db e i s).2.eventStudents = db.eventStudents ∧
        (registerSlot db e i s).2.nextRowId = db.nextRowId ∧
        (registerSlot db e i s).2.events = db.events.map (fun x =>
          if x.id = e then { x with slots := some (l.set i.toNat { slot with user := some s }) } else x) ∧
        (∀ j : Nat, ¬ (j = i.toNat) →
          (l.set i.toNat { slot with user := some s }).get? j = l.get? j) ∧
        (l.set i.toNat { slot with user := some s }).get? i.toNat = some { slot with user := some s } ∧
        (l.set i.toNat { slot with user := some s }).length = l.length)) ∧
    (slot.user = some s →
       ((unregisterSlot db e i s).2.eventStudents = db.eventStudents ∧
        (unregisterSlot db e i s).2.nextRowId = db.nextRowId ∧
        (unregisterSlot db e i s).2.events = db.events.map (fun x =>
          if x.id = e then { x with slots := some (l.set i.toNat { slot with user := none }) } else x) ∧
        (∀ j : Nat, ¬ (j = i.toNat) →
          (l.set i.toNat { slot with user := none }).get? j = l.get? j) ∧
        (l.set i.toNat { slot with user := none }).get? i.toNat = some { slot with user := none } ∧
        (l.set i.toNat { slot with user := none }).length = l.length)) := by
  obtain ⟨hi0, hlt, hg⟩ := listGetInt_some hget
  constructor
  · intro h1 h2
    rw [registerSlot_found db e i s ev l slot hs hev hsl hget,
        if_neg (by simp [h1]), if_neg (by simp [h2])]
    exact ⟨rfl, rfl, rfl,
      fun j hj => get?_set_ne l i.toNat j _ hj,
      get?_set_self l i.toNat _ hlt,
      by simp⟩
  · intro h1
    rw [unregisterSlot_found db e i s ev l slot hs hev hsl hget, if_neg (by simp [h1])]
    exact ⟨rfl, rfl, rfl,
      fun j hj => get?_set_ne l i.toNat j _ hj,
      get?_set_self l i.toNat _ hlt,
      by simp⟩

/-- Witness for C10: registering into a free slot of a one-slot event. -/
theorem slot_write_frame_witness :
    (registerSlot
      { events := [{ id := 1, slots := some [{ maxUsers := some 3, currentUsers := some 2, user := none }] }] }
      1 0 "s9").2.eventStudents = ([] : List EventStudentRow) ∧
    (([{ maxUsers := some 3, currentUsers := some 2, user := none }] : List Slot).set 0
        { maxUsers := some 3, currentUsers := some 2, user := some "s9" }).get? 0
      = some { maxUsers := some 3, currentUsers := some 2, user := some "s9" } := by
  have h := slot_write_frame
    { events := [{ id := 1, slots := some [{ maxUsers := some 3, currentUsers := some 2, user := none }] }] }
    1 0 "s9"
    { id := 1, slots := some [{ maxUsers := some 3, currentUsers := some 2, user := none }] }
    [{ maxUsers := some 3, currentUsers := some 2, user := none }]
    { maxUsers := some 3, currentUsers := some 2, user := none }
    rfl rfl rfl (by decide)
  exact ⟨(h.1 rfl rfl).1, (h.1 rfl rfl).2.2.2.2.1⟩

/-- C1 counterexample: the `unnamed/part_000` resolver, called with
`targetPromotions = []` over a one-student active roster and no existing
assignments, contacts the profile service (`active` call) and inserts the
full roster — not the zero-assignment skip the claim requires of
`targetPromotions = []`. -/
theorem assignV2_empty_array_contacts_profile_cex :
    (assignStudentsToEventV2
      { activeStudents := [{ id_user := some "s1", id_user_profile := none }],
        promoStudents := fun _ => [],
        profileById := fun _ => none }
      [] 7 (.arr [])).inserts = [("s1", 7)] ∧
    (assignStudentsToEventV2
      { activeStudents := [{ id_user := some "s1", id_user_profile := none }],
        promoStudents := fun _ => [],
        profileById := fun _ => none }
      [] 7 (.arr [])).calls = [SvcCall.active] :=
  ⟨rfl, rfl⟩

/-- C1 (amended): with `targetPromotions = null` the `event/event.js`
resolver fetches the active roster once and inserts one row per roster
student, and with `[]` it skips — no profile-service call, no insert. The
`unnamed/part_000` resolver instead treats `[]` exactly like `null`, so it
too resolves to the full active roster. -/
theorem assign_null_roster_empty_divergence :
    (∀ (env : Env1) (eventId : Int),
       assignStudentsToEventV1 env eventId .null =
         { inserts := env.activeStudents.map (fun student => (student.id_user, eventId)),
           calls := [.active] }) ∧
    (∀ (env : Env1) (eventId : Int),
       assignStudentsToEventV1 env eventId (.arr []) = { inserts := [], calls := [] }) ∧
    (∀ (env : Env2) (rows : List EventStudentRow) (eventId : Int),
       assignStudentsToEventV2 env rows eventId (.arr []) =
         assignStudentsToEventV2 env rows eventId .null) :=
  ⟨fun env eventId => rfl, fun env eventId => rfl, fun env rows eventId => rfl⟩

/-- C2 counterexample: a `PATCH /events/:id` against `event/event.js` whose
body carries `target_promotions: null` (key present) succeeds with 200 but
leaves the existing assignment row in place and never runs the resolver —
the delete-and-reassign step demanded by the claim does not happen. -/
theorem updateEventV1_null_key_skips_reassign_cex :
    (updateEventV1
      { activeStudents := [{ id_user := "x" }], promoStudents := fun _ => [] }
      { events := [{ id := 1 }],
        eventStudents := [{ id := 10, id_student := "stu", id_event := 1 }],
        nextRowId := 11 }
      1 { target_promotions := .null }).status = 200 ∧
    (updateEventV1
      { activeStudents := [{ id_user := "x" }], promoStudents := fun _ => [] }
      { events := [{ id := 1 }],
        eventStudents := [{ id := 10, id_student := "stu", id_event := 1 }],
        nextRowId := 11 }
      1 { target_promotions := .null }).db.eventStudents
      = [{ id := 10, id_student := "stu", id_event := 1 }] :=
  ⟨rfl, rfl⟩

/-- C2 (amended): when the `target_promotions` key is absent, both PATCH
versions leave the assignment table untouched; when it is present
(including an explicit `null`), the `unnamed/part_000` version — after a
successful row update — deletes every assignment of the event and re-runs
its resolver on the new value, so the event's rows become exactly the
resolver's output; `event/event.js` performs that step only for a non-empty
array value. -/
theorem updateEvent_target_promotions_trigger :
    (∀ (env : Env1) (db : Db) (id : Int) (b : PatchBody),
       b.target_promotions = .undef →
       (updateEventV1 env db id b).db.eventStudents = db.eventStudents) ∧
    (∀ (env : Env2) (db : Db) (id : Int) (b : PatchBody),
       b.target_promotions = .undef →
       (updateEventV2 env db id b).db.eventStudents = db.eventStudents) ∧
    (∀ (env : Env2) (db : Db) (id : Int) (b : PatchBody) (u : UpdateData) (data : Event) (tp : TPField),
       b.target_promotions = tp →
       ¬ (tp = .undef) →
       buildUpdateData db id b = .ok u →
       single? ((db.events.filter (fun e => e.id = id)).map (fun e => applyUpdate e u)) = some data →
       ((updateEventV2 env db id b).status = 200 ∧
        (updateEventV2 env db id b).db.eventStudents =
          db.eventStudents.filter (fun r => ¬ (r.id_event = data.id)) ++
            mkRows db.nextRowId
              (assignStudentsToEventV2 env
                (db.eventStudents.filter (fun r => ¬ (r.id_event = data.id))) data.id tp).inserts)) := by
  refine ⟨?_, ?_, ?_⟩
  · intro env db id b htp
    unfold updateEventV1
    split
    · rfl
    · split
      · rfl
      · rw [htp]
  · intro env db id b htp
    unfold updateEventV2
    split
    · rfl
    · split
      · rfl
      · rw [htp]
  · intro env db id b u data tp htp hne hok hfound
    unfold updateEventV2
    rw [hok]
    dsimp only
    rw [hfound]
    dsimp only
    rw [htp]
    cases tp with
    | undef => exact absurd rfl hne
    | null =>
      refine ⟨rfl, ?_⟩
      rw [insertPairs_eventStudents]
    | arr ps =>
      refine ⟨rfl, ?_⟩
      rw [insertPairs_eventStudents]

/-- Witness for C2 (amended): the part 3 hypotheses hold at a concrete
store, body and environment. -/
theorem updateEvent_target_promotions_trigger_witness :
    (updateEventV2
      { activeStudents := [{ id_user := some "x", id_user_profile := none }],
        promoStudents := fun _ => [],
        profileById := fun _ => none }
      { events := [{ id := 1 }],
        eventStudents := [{ id := 5, id_student := "old", id_event := 1 }],
        nextRowId := 6 }
      1 { target_promotions := .null }).status = 200 :=
  (updateEvent_target_promotions_trigger.2.2
    { activeStudents := [{ id_user := some "x", id_user_profile := none }],
      promoStudents := fun _ => [],
      profileById := fun _ => none }
    { events := [{ id := 1 }],
      eventStudents := [{ id := 5, id_student := "old", id_event := 1 }],
      nextRowId := 6 }
    1 { target_promotions := .null }
    { target_promotions := some none }
    { id := 1 }
    .null rfl (by decide) rfl rfl).1

/-- C7: when step 1 (deleting the event's `event_student` rows) fails, the
handler answers with the 500-class store failure and the store — the event
row included — is unchanged; otherwise the assignment rows of the event are
gone and step 2 answers 404 when no event row matches (events untouched) or
200 with the deleted snapshot after removing exactly that row. -/
theorem deleteEvent_spec (db : Db) (eid : Int) :
    (db.failEventStudentDelete = true →
       deleteEvent db eid = (.storeFailure, db) ∧ DelResp.status .storeFailure = 500) ∧
    (db.failEventStudentDelete = false → db.failEventDelete = false →
       ((deleteEvent db eid).2.eventStudents
          = db.eventStudents.filter (fun r => ¬ (r.id_event = eid)) ∧
        (db.events.filter (fun e => e.id = eid) = [] →
          (deleteEvent db eid).1 = .notFound ∧ (deleteEvent db eid).2.events = db.events) ∧
        (∀ ev : Event, db.events.filter (fun e => e.id = eid) = [ev] →
          (deleteEvent db eid).1 = .okDel ev ∧
          (deleteEvent db eid).2.events = db.events.filter (fun e => ¬ (e.id = eid))))) := by
  constructor
  · intro h1
    unfold deleteEvent
    rw [if_pos h1]
    exact ⟨rfl, rfl⟩
  · intro h1 h2
    unfold deleteEvent
    rw [if_neg (by simp [h1]), if_neg (by simp [h2])]
    dsimp only
    refine ⟨?_, ?_, ?_⟩
    · split <;> rfl
    · intro hnil
      rw [hnil]
      simp only [single?]
      refine ⟨trivial, ?_⟩
      rw [List.filter_eq_self]
      intro a ha
      have hno := (List.filter_eq_nil_iff.mp hnil) a ha
      simpa using hno
    · intro ev hone
      rw [hone]
      exact ⟨rfl, rfl⟩

/-- Witness for C7: a failing step 1 on one store, and a successful cascade
delete on another. -/
theorem deleteEvent_spec_witness :
    deleteEvent
      { events := [{ id := 4 }],
        eventStudents := [{ id := 1, id_student := "s", id_event := 4 }],
        failEventStudentDelete := true }
      4
      = (.storeFailure,
         { events := [{ id := 4 }],
           eventStudents := [{ id := 1, id_student := "s", id_event := 4 }],
           failEventStudentDelete := true }) ∧
    (deleteEvent
      { events := [{ id := 4 }],
        eventStudents := [{ id := 1, id_student := "s", id_event := 4 }] }
      4).1 = DelResp.okDel { id := 4 } :=
  ⟨((deleteEvent_spec
      { events := [{ id := 4 }],
        eventStudents := [{ id := 1, id_student := "s", id_event := 4 }],
        failEventStudentDelete := true }
      4).1 rfl).1,
   (((deleteEvent_spec
      { events := [{ id := 4 }],
        eventStudents := [{ id := 1, id_student := "s", id_event := 4 }] }
      4).2 rfl rfl).2.2 { id := 4 } rfl).1⟩

/-- C8: `PATCH /event-students/:id` rejects a body with neither field (400),
rejects a truthy `id_student` that fails the UUID regex (400), answers 404
when a truthy `id_event` names no existing event, and — once the current row
is loaded — answers 409 exactly when the effective (student, event) pair
recomputed from the partial change belongs to a row other than `id`;
otherwise the row is updated to that effective pair. -/
theorem updateEventStudent_spec :
    (∀ (db : Db) (id : Int) (b : ESPatchBody),
       jsTruthyStr b.id_student = false → jsTruthyInt b.id_event = false →
       updateEventStudent db id b = (.noFields, db) ∧ ESResp.status .noFields = 400) ∧
    (∀ (db : Db) (id : Int) (b : ESPatchBody) (t : String),
       b.id_student = some t → ¬ (t = "") → uuidRegex t = false →
       updateEventStudent db id b = (.invalidStudentId, db) ∧
       ESResp.status .invalidStudentId = 400) ∧
    (∀ (db : Db) (id : Int) (b : ESPatchBody) (uStud : Option String) (v : Int),
       (!(jsTruthyStr b.id_student) && !(jsTruthyInt b.id_event)) = false →
       esStudentStep b = .ok uStud →
       b.id_event = some v → ¬ (v = 0) →
       db.events.filter (fun e => e.id = v) = [] →
       updateEventStudent db id b = (.eventNotFound, db)) ∧
    (∀ (db : Db) (id : Int) (b : ESPatchBody) (uStud : Option String) (uEv : Option Int)
        (currentRow : EventStudentRow),
       (!(jsTruthyStr b.id_student) && !(jsTruthyInt b.id_event)) = false →
       esStudentStep b = .ok uStud →
       esEventStep db b = .ok uEv →
       db.eventStudents.filter (fun r => r.id = id) = [currentRow] →
       (db.eventStudents.filter (fun r =>
          r.id_student = uStud.getD currentRow.id_student ∧
          r.id_event = uEv.getD currentRow.id_event ∧ ¬ (r.id = id))).length ≤ 1 →
       (((updateEventStudent db id b).1 = .conflict ↔
          ∃ r ∈ db.eventStudents, ¬ (r.id = id) ∧
            r.id_student = uStud.getD currentRow.id_student ∧
            r.id_event = uEv.getD currentRow.id_event) ∧
        (db.eventStudents.filter (fun r =>
            r.id_student = uStud.getD currentRow.id_student ∧
            r.id_event = uEv.getD currentRow.id_event ∧ ¬ (r.id = id)) = [] →
          updateEventStudent db id b =
            (.okUpd { currentRow with
                        id_student := uStud.getD currentRow.id_student,
                        id_event := uEv.getD currentRow.id_event },
             { db with eventStudents := db.eventStudents.map (fun r =>
                 if r.id = id then
                   { r with id_student := uStud.getD r.id_student,
                            id_event := uEv.getD r.id_event }
                 else r) })))) := by
  refine ⟨?_, ?_, ?_, ?_⟩
  · intro db id b h1 h2
    unfold updateEventStudent
    rw [if_pos (by simp [h1, h2])]
    exact ⟨rfl, rfl⟩
  · intro db id b t hb ht hbad
    have hstep : esStudentStep b = .error .invalidStudentId := by
      unfold esStudentStep
      rw [hb]
      dsimp only
      rw [if_neg ht, if_neg (by simp [hbad])]
    unfold updateEventStudent
    rw [if_neg (by simp [jsTruthyStr, hb, ht]), hstep]
    exact ⟨rfl, rfl⟩
  · intro db id b uStud v hfirst hstud hb hv hnil
    have hevstep : esEventStep db b = .error .eventNotFound := by
      unfold esEventStep
      rw [hb]
      dsimp only
      rw [if_neg hv, hnil]
      rfl
    unfold updateEventStudent
    rw [if_neg (by simp [hfirst]), hstud]
    dsimp only
    rw [hevstep]
  · intro db id b uStud uEv currentRow hfirst hstud hev hcur hwf
    have hcurmem : currentRow ∈ db.eventStudents.filter (fun r => r.id = id) := by
      rw [hcur]; exact List.mem_singleton.mpr rfl
    have hcid : currentRow.id = id := by
      have h2 := (List.mem_filter.mp hcurmem).2
      simpa using h2
    unfold updateEventStudent
    rw [if_neg (by simp [hfirst]), hstud]
    dsimp only
    rw [hev]
    dsimp only
    rw [hcur]
    simp only [single?]
    constructor
    · -- Conflict characterisation
      cases hF : db.eventStudents.filter (fun r =>
          r.id_student = uStud.getD currentRow.id_student ∧
          r.id_event = uEv.getD currentRow.id_event ∧ ¬ (r.id = id)) with
      | nil =>
        have hnodup : ¬ (∃ r ∈ db.eventStudents, ¬ (r.id = id) ∧
            r.id_student = uStud.getD currentRow.id_student ∧
            r.id_event = uEv.getD currentRow.id_event) := by
          rintro ⟨r, hrmem, hrid, hrs, hre⟩
          have hno := List.filter_eq_nil_iff.mp hF r hrmem
          simp [hrs, hre, hrid] at hno
        simp only [maybeSingle?]
        refine iff_of_false ?_ hnodup
        split <;> simp
      | cons x xs =>
        cases xs with
        | nil =>
          have hx : x ∈ db.eventStudents.filter (fun r =>
              r.id_student = uStud.getD currentRow.id_student ∧
              r.id_event = uEv.getD currentRow.id_event ∧ ¬ (r.id = id)) := by
            rw [hF]; exact List.mem_singleton.mpr rfl
          have hxm := List.mem_filter.mp hx
          have hxp := hxm.2
          simp only [decide_eq_true_eq] at hxp
          simp only [maybeSingle?]
          exact iff_of_true trivial ⟨x, hxm.1, hxp.2.2, hxp.1, hxp.2.1⟩
        | cons y ys =>
          rw [hF] at hwf
          simp at hwf
    · -- success shape
      intro hFnil
      rw [hFnil]
      simp only [maybeSingle?]
      have hf : ∀ r : EventStudentRow,
          ((if r.id = id then
              { r with id_student := uStud.getD r.id_student,
                       id_event := uEv.getD r.id_event }
            else r) : EventStudentRow).id = r.id := by
        intro r
        by_cases h : r.id = id <;> simp [h]
      have hmap := filter_map_id_preserving db.eventStudents id
        (fun r => if r.id = id then
            { r with id_student := uStud.getD r.id_student,
                     id_event := uEv.getD r.id_event }
          else r) hf
      rw [hmap, hcur]
      simp only [List.map_cons, List.map_nil, single?]
      rw [if_pos hcid]

/-- Witness for C8: updating row 1's student to a fresh UUID whose effective
pair clashes with no other row succeeds and rewrites only that row. -/
theorem updateEventStudent_spec_witness :
    updateEventStudent
      { events := [{ id := 2 }],
        eventStudents := [{ id := 1, id_student := "06f5fc8f-b654-4571-a1c4-131491b7b8d9", id_event := 1 },
                          { id := 2, id_student := "16f5fc8f-b654-4571-a1c4-131491b7b8d9", id_event := 2 }] }
      1 { id_student := some "16f5fc8f-b654-4571-a1c4-131491b7b8d9" }
      = (.okUpd { id := 1, id_student := "16f5fc8f-b654-4571-a1c4-131491b7b8d9", id_event := 1 },
         { events := [{ id := 2 }],
           eventStudents := [{ id := 1, id_student := "16f5fc8f-b654-4571-a1c4-131491b7b8d9", id_event := 1 },
                             { id := 2, id_student := "16f5fc8f-b654-4571-a1c4-131491b7b8d9", id_event := 2 }] }) :=
  (updateEventStudent_spec.2.2.2
    { events := [{ id := 2 }],
      eventStudents := [{ id := 1, id_student := "06f5fc8f-b654-4571-a1c4-131491b7b8d9", id_event := 1 },
                        { id := 2, id_student := "16f5fc8f-b654-4571-a1c4-131491b7b8d9", id_event := 2 }] }
    1 { id_student := some "16f5fc8f-b654-4571-a1c4-131491b7b8d9" }
    (some "16f5fc8f-b654-4571-a1c4-131491b7b8d9") none
    { id := 1, id_student := "06f5fc8f-b654-4571-a1c4-131491b7b8d9", id_event := 1 }
    (by decide) rfl rfl rfl (by decide)).2 rfl

end Calendar
